import Mathlib

/-!
Verification of the filter/aggregation pipeline of the Weather_analysis-AUS
dashboard (files `w.py` and `weather_insights.py`).

The development shallowly embeds the pipeline:
* the schema resolver `_norm` / `_build_norm_map` / `_pick_col`;
* the binary-category normalizer `_ensure_yes_no`;
* the load-time type-coercion block (date parse + dropna, `_ensure_numeric`,
  rain-flag normalization), including its in-place mutation of the raw frame;
* the sidebar filter block of `w.py` and the `build_where_clause` conditions
  of `weather_insights.py`;
* the aggregation views: top-5 rainiest cities (groupby/mean/nlargest and the
  SQL GROUP BY / ORDER BY / LIMIT query) and the humidity/wind rain-probability
  views (`pd.cut` buckets and the SQL CASE buckets).

Machine floats of the source are modelled by `ℚ` (the comparisons and
arithmetic appearing in the pipeline are exact at these scales); `NaN` / SQL
`NULL` cells are modelled by `Option`.  Python strings are handled at the level
of their character lists so that every definition reduces by `decide`.
-/

namespace WeatherAUS

/-! ### Character-level string helpers

`lowerChar` is ASCII lower-casing (Python `str.lower` restricted to the ASCII
range relevant to the literals of the program), `isWS`/`trimL` model Python
`str.strip`, and `hasSub` models the Python substring test `t in s`. -/

def lowerChar (c : Char) : Char :=
  if 65 ≤ c.toNat ∧ c.toNat ≤ 90 then Char.ofNat (c.toNat + 32) else c

def isAlnumLower (c : Char) : Bool :=
  (97 ≤ c.toNat && c.toNat ≤ 122) || (48 ≤ c.toNat && c.toNat ≤ 57)

def isWS (c : Char) : Bool :=
  c = ' ' || c = '\t' || c = '\n' || c = '\r'

def trimL (l : List Char) : List Char :=
  ((l.dropWhile isWS).reverse.dropWhile isWS).reverse

def hasSub (t l : List Char) : Bool :=
  (List.range (l.length + 1)).any (fun i => t.isPrefixOf (l.drop i))

/-! ### Schema resolver (`w.py` lines 36–63)

`_norm` lower-cases a name and strips every character outside `[a-z0-9]`.
`_build_norm_map` is the dict comprehension mapping each normalized name to its
column; a Python dict comprehension keeps the LAST binding for a duplicated
key, so its lookup is `normMapLookup` below.  `_pick_col` first scans the
candidate list in order for an exact normalized match, then scans the columns
in original order for one whose normalized form contains a substring token,
and returns `none` when both phases fail.  (In the source `_pick_col` also
returns `None` for an absent/empty frame; the program stops on an empty frame
before resolution, so the resolver is embedded over the column-name list.) -/

def norm (s : String) : List Char :=
  (s.data.map lowerChar).filter isAlnumLower

def normMapLookup (cols : List String) (key : List Char) : Option String :=
  (cols.filter (fun c => norm c == key)).getLast?

def tokenHit (subs : List String) (c : String) : Bool :=
  (subs.map norm).any (fun t => hasSub t (norm c))

def pickCol (cols cands subs : List String) : Option String :=
  match cands.findSome? (fun cand => normMapLookup cols (norm cand)) with
  | some c => some c
  | none => cols.find? (fun c => tokenHit subs c)

/-! ### Binary-category normalizer (`w.py` lines 70–78)

`_ensure_yes_no` maps each cell through `astype(str).str.strip().str.lower()`
and then through the truthy/falsy literal table.  A `NaN` cell becomes the
string `"nan"` under `astype(str)`, which is in neither table, so null maps to
null. -/

def yesLits : List (List Char) :=
  ["yes".data, "y".data, "true".data, "1".data]

def noLits : List (List Char) :=
  ["no".data, "n".data, "false".data, "0".data]

def pyNormCell (s : String) : List Char :=
  (trimL s.data).map lowerChar

def ensureYesNo (s : String) : Option String :=
  if pyNormCell s ∈ yesLits then some "Yes"
  else if pyNormCell s ∈ noLits then some "No"
  else none

/-! ### Helper lemmas -/

theorem getLast?_mem {α : Type} {l : List α} {a : α} (h : l.getLast? = some a) :
    a ∈ l := by
  obtain ⟨hne, rfl⟩ := List.mem_getLast?_eq_getLast h
  exact List.getLast_mem hne

theorem findSome?_append_none {α β : Type} {f : α → Option β} {pre rest : List α}
    (h : ∀ a ∈ pre, f a = none) :
    (pre ++ rest).findSome? f = rest.findSome? f := by
  induction pre with
  | nil => rfl
  | cons a l ih =>
    simp only [List.cons_append, List.findSome?_cons, h a (by simp)]
    exact ih (fun x hx => h x (by simp [hx]))

theorem find?_append_false {α : Type} {p : α → Bool} {pre rest : List α}
    (h : ∀ a ∈ pre, p a = false) :
    (pre ++ rest).find? p = rest.find? p := by
  induction pre with
  | nil => rfl
  | cons a l ih =>
    simp only [List.cons_append, List.find?_cons, h a (by simp)]
    exact ih (fun x hx => h x (by simp [hx]))

theorem normMapLookup_some {cols : List String} {key : List Char} {c : String}
    (h : normMapLookup cols key = some c) : c ∈ cols ∧ norm c = key := by
  have hm := getLast?_mem h
  rw [List.mem_filter] at hm
  exact ⟨hm.1, by simpa using hm.2⟩

theorem normMapLookup_isSome {cols : List String} {key : List Char}
    (h : ∃ c ∈ cols, norm c = key) : (normMapLookup cols key).isSome := by
  obtain ⟨c, hc, hk⟩ := h
  have : c ∈ cols.filter (fun c => norm c == key) := by
    rw [List.mem_filter]
    exact ⟨hc, by simp [hk]⟩
  have hne : cols.filter (fun c => norm c == key) ≠ [] := by
    intro hnil; rw [hnil] at this; exact (List.not_mem_nil c) this
  rw [normMapLookup, List.getLast?_eq_getLast_of_ne_nil hne]
  rfl

theorem normMapLookup_none {cols : List String} {key : List Char}
    (h : ¬ ∃ c ∈ cols, norm c = key) : normMapLookup cols key = none := by
  rw [normMapLookup]
  have : cols.filter (fun c => norm c == key) = [] := by
    rw [List.filter_eq_nil_iff]
    intro a ha
    simp only [beq_iff_eq]
    exact fun he => h ⟨a, ha, he⟩
  rw [this]; rfl

/-- C3: the schema resolver first returns a real column whose normalized form
(lower-cased, non-alphanumerics stripped) exactly equals the normalized form of
the first candidate that has such a match, taking candidates in listed priority
order; if no candidate matches exactly it returns the first column in original
table order whose normalized form contains a substring token; if both phases
fail it returns `none` (it is a total function, so it never throws). -/
theorem pickCol_characterization (cols cands subs : List String) :
    (∀ pre cand post, cands = pre ++ cand :: post →
        (∀ c ∈ pre, ¬ ∃ col ∈ cols, norm col = norm c) →
        (∃ col ∈ cols, norm col = norm cand) →
        ∃ col ∈ cols, norm col = norm cand ∧ pickCol cols cands subs = some col)
    ∧ ((∀ cand ∈ cands, ¬ ∃ col ∈ cols, norm col = norm cand) →
        ∀ pre col post, cols = pre ++ col :: post →
        (∀ c ∈ pre, tokenHit subs c = false) →
        tokenHit subs col = true →
        pickCol cols cands subs = some col)
    ∧ ((∀ cand ∈ cands, ¬ ∃ col ∈ cols, norm col = norm cand) →
        (∀ col ∈ cols, tokenHit subs col = false) →
        pickCol cols cands subs = none) := by
  refine ⟨?_, ?_, ?_⟩
  · intro pre cand post hsplit hpre hcand
    obtain ⟨c, hc⟩ := Option.isSome_iff_exists.mp (normMapLookup_isSome hcand)
    have hchar := normMapLookup_some hc
    refine ⟨c, hchar.1, hchar.2, ?_⟩
    rw [pickCol, hsplit,
      findSome?_append_none (fun a ha => normMapLookup_none (hpre a ha)),
      List.findSome?_cons, hc]
  · intro hnone pre col post hsplit hpre hcol
    have hfs : cands.findSome? (fun cand => normMapLookup cols (norm cand)) = none := by
      rw [List.findSome?_eq_none_iff]
      exact fun a ha => normMapLookup_none (hnone a ha)
    rw [pickCol, hfs, hsplit, find?_append_false hpre, List.find?_cons, hcol]
  · intro hnone hhit
    have hfs : cands.findSome? (fun cand => normMapLookup cols (norm cand)) = none := by
      rw [List.findSome?_eq_none_iff]
      exact fun a ha => normMapLookup_none (hnone a ha)
    rw [pickCol, hfs, List.find?_eq_none]
    intro a ha
    simp [hhit a ha]

/-- Witness for C3: with columns `["Humidity 3pm", "WindSpeed"]`, the candidate
`"humidity3pm"` matches `"Humidity 3pm"` exactly after normalization; with no
candidate, the token `"wind"` fuzzy-matches `"WindSpeed"`; with neither, the
resolver returns `none`. -/
theorem pickCol_characterization_witness :
    (∃ col ∈ ["Humidity 3pm", "WindSpeed"], norm col = norm "humidity3pm" ∧
      pickCol ["Humidity 3pm", "WindSpeed"] ["humidity3pm"] [] = some col)
    ∧ pickCol ["Humidity 3pm", "WindSpeed"] [] ["wind"] = some "WindSpeed"
    ∧ pickCol ["Humidity 3pm", "WindSpeed"] ["rainfall"] ["rain"] = none := by
  refine ⟨?_, ?_, ?_⟩
  · exact (pickCol_characterization ["Humidity 3pm", "WindSpeed"] ["humidity3pm"] []).1
      [] "humidity3pm" [] rfl (by intro c hc; cases hc) (by decide)
  · exact (pickCol_characterization ["Humidity 3pm", "WindSpeed"] [] ["wind"]).2.1
      (by intro c hc; cases hc) ["Humidity 3pm"] "WindSpeed" [] rfl (by decide) (by decide)
  · exact (pickCol_characterization ["Humidity 3pm", "WindSpeed"] ["rainfall"] ["rain"]).2.2
      (by decide) (by decide)

/-- C10: `_ensure_yes_no` maps a cell to `"Yes"` exactly when its stripped,
lower-cased form is one of `yes/y/true/1`, to `"No"` exactly when that form is
one of `no/n/false/0`, and to null otherwise; in particular `"YES"`, `" True "`
and `"0"` normalize like their canonical lowercase literals. -/
theorem ensureYesNo_characterization (s : String) :
    (ensureYesNo s = some "Yes" ↔ pyNormCell s ∈ yesLits)
    ∧ (ensureYesNo s = some "No" ↔ pyNormCell s ∈ noLits)
    ∧ (ensureYesNo s = none ↔ (pyNormCell s ∉ yesLits ∧ pyNormCell s ∉ noLits))
    ∧ ensureYesNo "YES" = some "Yes"
    ∧ ensureYesNo " True " = some "Yes"
    ∧ ensureYesNo "0" = some "No" := by
  have hdisj : pyNormCell s ∈ yesLits → pyNormCell s ∈ noLits → False := by
    intro hy hn
    simp only [yesLits, noLits, List.mem_cons, List.not_mem_nil, or_false] at hy hn
    rcases hy with h | h | h | h <;> rw [h] at hn <;> revert hn <;> decide
  refine ⟨?_, ?_, ?_, by decide, by decide, by decide⟩
  · rw [ensureYesNo]
    split_ifs with h1 h2
    · exact iff_of_true rfl h1
    · exact iff_of_false (by decide) h1
    · exact iff_of_false (by simp) h1
  · rw [ensureYesNo]
    split_ifs with h1 h2
    · exact iff_of_false (by decide) (fun hn => hdisj h1 hn)
    · exact iff_of_true rfl h2
    · exact iff_of_false (by simp) h2
  · rw [ensureYesNo]
    split_ifs with h1 h2
    · exact iff_of_false (by simp) (fun hp => hp.1 h1)
    · exact iff_of_false (by simp) (fun hp => hp.2 h2)
    · exact iff_of_true rfl ⟨h1, h2⟩

/-- Witness for C10 at concrete inputs, via the equivalences. -/
theorem ensureYesNo_characterization_witness :
    ensureYesNo "YES" = some "Yes" ∧ ensureYesNo " no " = some "No" ∧
      ensureYesNo "maybe" = none :=
  ⟨(ensureYesNo_characterization "YES").1.mpr (by decide),
   (ensureYesNo_characterization " no ").2.1.mpr (by decide),
   (ensureYesNo_characterization "maybe").2.2.1.mpr (by decide)⟩

/-! ### Type coercion (`w.py` lines 65–78 and 139–149)

A cell of the frame is a raw string, a float, a parsed timestamp, or null
(`NaN`/`NaT`).  `pd.to_datetime(..., errors="coerce")` and
`pd.to_numeric(..., errors="coerce")` are embedded with their parsing functions
abstracted (`parseDate` for datetime parsing of strings, `parseDateNum` for
datetime interpretation of numbers, `parseNum` for numeric parsing of strings);
both are the identity on already-typed cells and send null to null.
`str()`-rendering of floats and timestamps (used by `astype(str)` inside
`_ensure_yes_no`) is likewise abstracted (`showNum`, `showDate`); a null cell
renders as the string `"nan"`. -/

inductive Value : Type
  | vStr (s : String)
  | vNum (q : ℚ)
  | vDate (d : ℕ)
  | vNull
deriving DecidableEq

structure RawRow : Type where
  date : Value
  rainfall : Value
  maxtemp : Value
  humidity : Value
  wind : Value
  rainToday : Value
  rainTomorrow : Value
deriving DecidableEq

variable (parseDate : String → Option ℕ) (parseDateNum : ℚ → Option ℕ)
variable (parseNum : String → Option ℚ)
variable (showNum : ℚ → String) (showDate : ℕ → String)

def toDatetime : Value → Value
  | .vDate d => .vDate d
  | .vStr s => match parseDate s with | some d => .vDate d | none => .vNull
  | .vNum q => match parseDateNum q with | some d => .vDate d | none => .vNull
  | .vNull => .vNull

def toNumeric : Value → Value
  | .vNum q => .vNum q
  | .vStr s => match parseNum s with | some q => .vNum q | none => .vNull
  | .vDate d => .vNum (d : ℚ)
  | .vNull => .vNull

def valueStr : Value → String
  | .vStr s => s
  | .vNum q => showNum q
  | .vDate d => showDate d
  | .vNull => "nan"

def ensureYesNoV (v : Value) : Value :=
  match ensureYesNo (valueStr showNum showDate v) with
  | some s => .vStr s
  | none => .vNull

def isNullV : Value → Bool
  | .vNull => true
  | _ => false

/-- Line 139: `df[date_col] = pd.to_datetime(df[date_col], errors="coerce")`,
an in-place update of the date column. -/
def coerceDate (r : RawRow) : RawRow :=
  { r with date := toDatetime parseDate parseDateNum r.date }

/-- Line 140: `df = df.dropna(subset=[date_col])` (a new frame, not an
in-place update). -/
def dropNullDates (t : List RawRow) : List RawRow :=
  t.filter (fun r => !(isNullV r.date))

/-- Line 143: `_ensure_numeric` over the rainfall/max-temp/humidity/wind
columns, in-place updates of the frame it receives. -/
def coerceNums (r : RawRow) : RawRow :=
  { r with rainfall := toNumeric parseNum r.rainfall,
           maxtemp := toNumeric parseNum r.maxtemp,
           humidity := toNumeric parseNum r.humidity,
           wind := toNumeric parseNum r.wind }

/-- Lines 146–149: `_ensure_yes_no` over the two rain-flag columns. -/
def coerceRain (r : RawRow) : RawRow :=
  { r with rainToday := ensureYesNoV showNum showDate r.rainToday,
           rainTomorrow := ensureYesNoV showNum showDate r.rainTomorrow }

/-- The whole load-time coercion block, with Python's aliasing made explicit:
the first component is the final state of the raw table object that was passed
in (mutated by line 139 only — `dropna` rebinds the name `df` to a fresh frame,
so lines 143–149 mutate that fresh frame, not the raw one), and the second
component is the final coerced frame bound to `df`. -/
def coerceLoad (t : List RawRow) : List RawRow × List RawRow :=
  let raw1 := t.map (coerceDate parseDate parseDateNum)
  let d1 := dropNullDates raw1
  let d2 := d1.map (coerceNums parseNum)
  let d3 := d2.map (coerceRain showNum showDate)
  (raw1, d3)

/-- The coerced dataset that the rest of the dashboard works with. -/
def coerce (t : List RawRow) : List RawRow :=
  (coerceLoad parseDate parseDateNum parseNum showNum showDate t).2

/-- A row's date cell parses successfully. -/
def dateOk (r : RawRow) : Bool :=
  !(isNullV (toDatetime parseDate parseDateNum r.date))

/-- Full per-row coercion (date, numerics, rain flags). -/
def coerceRow (r : RawRow) : RawRow :=
  coerceRain showNum showDate
    (coerceNums parseNum (coerceDate parseDate parseDateNum r))

/-! ### Lemmas about coercion -/

theorem toDatetime_idem (v : Value) :
    toDatetime parseDate parseDateNum (toDatetime parseDate parseDateNum v)
      = toDatetime parseDate parseDateNum v := by
  cases v with
  | vStr s => cases hp : parseDate s <;> simp [toDatetime, hp]
  | vNum q => cases hp : parseDateNum q <;> simp [toDatetime, hp]
  | vDate d => rfl
  | vNull => rfl

theorem toNumeric_idem (v : Value) :
    toNumeric parseNum (toNumeric parseNum v) = toNumeric parseNum v := by
  cases v with
  | vStr s => cases hp : parseNum s <;> simp [toNumeric, hp]
  | vNum q => rfl
  | vDate d => rfl
  | vNull => rfl

theorem ensureYesNo_cases (s : String) :
    ensureYesNo s = some "Yes" ∨ ensureYesNo s = some "No" ∨ ensureYesNo s = none := by
  rw [ensureYesNo]; split_ifs <;> simp

theorem ensureYesNo_yes : ensureYesNo "Yes" = some "Yes" := by decide

theorem ensureYesNo_no : ensureYesNo "No" = some "No" := by decide

theorem ensureYesNo_nan : ensureYesNo "nan" = none := by decide

theorem ensureYesNoV_idem (v : Value) :
    ensureYesNoV showNum showDate (ensureYesNoV showNum showDate v)
      = ensureYesNoV showNum showDate v := by
  have hv : ensureYesNoV showNum showDate v = .vStr "Yes"
      ∨ ensureYesNoV showNum showDate v = .vStr "No"
      ∨ ensureYesNoV showNum showDate v = .vNull := by
    rcases ensureYesNo_cases (valueStr showNum showDate v) with h | h | h <;>
      simp [ensureYesNoV, h]
  rcases hv with h | h | h <;> rw [h] <;>
    simp [ensureYesNoV, valueStr, ensureYesNo_yes, ensureYesNo_no, ensureYesNo_nan]

theorem coerceRow_idem (r : RawRow) :
    coerceRow parseDate parseDateNum parseNum showNum showDate
        (coerceRow parseDate parseDateNum parseNum showNum showDate r)
      = coerceRow parseDate parseDateNum parseNum showNum showDate r := by
  simp [coerceRow, coerceDate, coerceNums, coerceRain, toDatetime_idem,
    toNumeric_idem, ensureYesNoV_idem]

theorem dateOk_coerceRow (r : RawRow) :
    dateOk parseDate parseDateNum
        (coerceRow parseDate parseDateNum parseNum showNum showDate r)
      = dateOk parseDate parseDateNum r := by
  simp [dateOk, coerceRow, coerceDate, coerceNums, coerceRain, toDatetime_idem]

theorem coerce_eq_filter_map (t : List RawRow) :
    coerce parseDate parseDateNum parseNum showNum showDate t
      = (t.filter (dateOk parseDate parseDateNum)).map
          (coerceRow parseDate parseDateNum parseNum showNum showDate) := by
  induction t with
  | nil => rfl
  | cons r t ih =>
    simp only [coerce, coerceLoad, dropNullDates, List.map_cons, List.filter_cons] at ih ⊢
    by_cases h : isNullV (toDatetime parseDate parseDateNum r.date)
    · simpa [coerceDate, dateOk, h] using ih
    · simpa [coerceDate, dateOk, h, coerceRow] using ih

/-- C4: the coercion block drops exactly the rows whose date cell fails to
parse; a row whose date parses is retained even when a numeric or rain-flag
cell fails its own coercion — such a cell becomes null instead. -/
theorem coercion_drop_policy (t : List RawRow) :
    (coerce parseDate parseDateNum parseNum showNum showDate t
      = (t.filter (dateOk parseDate parseDateNum)).map
          (coerceRow parseDate parseDateNum parseNum showNum showDate))
    ∧ ((coerce parseDate parseDateNum parseNum showNum showDate t).length
        = (t.filter (dateOk parseDate parseDateNum)).length)
    ∧ (∀ r ∈ t, dateOk parseDate parseDateNum r = true →
        coerceRow parseDate parseDateNum parseNum showNum showDate r
          ∈ coerce parseDate parseDateNum parseNum showNum showDate t)
    ∧ (∀ s, parseNum s = none → toNumeric parseNum (.vStr s) = .vNull)
    ∧ (∀ s, ensureYesNo s = none →
        ensureYesNoV showNum showDate (.vStr s) = .vNull) := by
  refine ⟨coerce_eq_filter_map _ _ _ _ _ t, ?_, ?_, ?_, ?_⟩
  · rw [coerce_eq_filter_map, List.length_map]
  · intro r hr hok
    rw [coerce_eq_filter_map]
    exact List.mem_map_of_mem _ (List.mem_filter.mpr ⟨hr, hok⟩)
  · intro s hs; simp [toNumeric, hs]
  · intro s hs; simp [ensureYesNoV, valueStr, hs]

/-! Concrete instantiations of the abstracted parsers/renderers, used to
evaluate the coercion block on closed inputs. -/

def parseDateC : String → Option ℕ :=
  fun s => if s = "2020-01-01" then some 18262 else none

def parseDateNumC : ℚ → Option ℕ := fun _ => none

def parseNumC : String → Option ℚ :=
  fun s => if s = "3" then some 3 else none

def showNumC : ℚ → String := fun _ => "f"

def showDateC : ℕ → String := fun _ => "d"

def rowGood : RawRow :=
  { date := .vStr "2020-01-01", rainfall := .vStr "3", maxtemp := .vStr "oops",
    humidity := .vNull, wind := .vNull, rainToday := .vStr "yes",
    rainTomorrow := .vStr "??" }

def rowBadDate : RawRow :=
  { date := .vStr "not-a-date", rainfall := .vStr "3", maxtemp := .vNull,
    humidity := .vNull, wind := .vNull, rainToday := .vNull,
    rainTomorrow := .vNull }

/-- Witness for C4: on a two-row table whose second row has an unparseable
date, coercion keeps exactly the first row — with its unparseable max-temp and
rain-tomorrow cells set to null — and drops the second. -/
theorem coercion_drop_policy_witness :
    coerceRow parseDateC parseDateNumC parseNumC showNumC showDateC rowGood
      ∈ coerce parseDateC parseDateNumC parseNumC showNumC showDateC
          [rowGood, rowBadDate]
    ∧ toNumeric parseNumC (.vStr "oops") = .vNull
    ∧ ensureYesNoV showNumC showDateC (.vStr "??") = .vNull
    ∧ (coerce parseDateC parseDateNumC parseNumC showNumC showDateC
        [rowGood, rowBadDate]).length = 1 := by
  refine ⟨?_, ?_, ?_, ?_⟩
  · exact (coercion_drop_policy parseDateC parseDateNumC parseNumC showNumC
      showDateC [rowGood, rowBadDate]).2.2.1 rowGood (by decide) (by decide)
  · exact (coercion_drop_policy parseDateC parseDateNumC parseNumC showNumC
      showDateC [rowGood, rowBadDate]).2.2.2.1 "oops" (by decide)
  · exact (coercion_drop_policy parseDateC parseDateNumC parseNumC showNumC
      showDateC [rowGood, rowBadDate]).2.2.2.2 "??" (by decide)
  · decide

/-- C8: running the coercion block a second time on an already-coerced dataset
returns it unchanged — no further rows are dropped, numeric cells are fixed by
re-parsing, and re-normalizing the rain flags maps `"Yes"` to `"Yes"`, `"No"`
to `"No"` and null to null. -/
theorem coercion_idempotent (t : List RawRow) :
    (coerce parseDate parseDateNum parseNum showNum showDate
        (coerce parseDate parseDateNum parseNum showNum showDate t)
      = coerce parseDate parseDateNum parseNum showNum showDate t)
    ∧ ensureYesNoV showNum showDate (.vStr "Yes") = .vStr "Yes"
    ∧ ensureYesNoV showNum showDate (.vStr "No") = .vStr "No"
    ∧ ensureYesNoV showNum showDate .vNull = .vNull
    ∧ (∀ q : ℚ, toNumeric parseNum (.vNum q) = .vNum q)
    ∧ toNumeric parseNum .vNull = .vNull := by
  refine ⟨?_, by simp [ensureYesNoV, valueStr, ensureYesNo_yes],
    by simp [ensureYesNoV, valueStr, ensureYesNo_no],
    by simp [ensureYesNoV, valueStr, ensureYesNo_nan],
    fun q => rfl, rfl⟩
  rw [coerce_eq_filter_map parseDate parseDateNum parseNum showNum showDate t,
    coerce_eq_filter_map, List.filter_map, List.map_map]
  have hf : ∀ r : RawRow,
      (dateOk parseDate parseDateNum ∘
        coerceRow parseDate parseDateNum parseNum showNum showDate) r
        = dateOk parseDate parseDateNum r :=
    fun r => dateOk_coerceRow _ _ _ _ _ r
  rw [List.filter_congr (fun r _ => hf r), List.filter_filter]
  have hp : ∀ r : RawRow,
      (dateOk parseDate parseDateNum r && dateOk parseDate parseDateNum r)
        = dateOk parseDate parseDateNum r := by simp
  rw [List.filter_congr (fun r _ => hp r)]
  exact List.map_congr_left (fun r _ => coerceRow_idem _ _ _ _ _ r)

/-- Counterexample for C9: the coercion block does NOT leave the raw input
table unchanged — line 139 overwrites the raw table's date column in place, so
after coercion the raw table holds a parsed timestamp where it held the
original date string. -/
theorem coercion_mutates_raw :
    (coerceLoad parseDateC parseDateNumC parseNumC showNumC showDateC
        [rowGood]).1 ≠ [rowGood] := by
  decide

/-- C9 as amended: `_pick_col` is a pure function of its inputs, but the
coercion block mutates the raw table in place through its date column: after
the block, the raw table still has all of its original rows and all of its
non-date cells, while each date cell has been replaced by its parse result.
The dropping of rows and the numeric/rain-flag rewrites happen on the fresh
frame produced by `dropna`, never on the raw table. -/
theorem coercion_mutation_frame (t : List RawRow) :
    ((coerceLoad parseDate parseDateNum parseNum showNum showDate t).1
      = t.map (coerceDate parseDate parseDateNum))
    ∧ ((coerceLoad parseDate parseDateNum parseNum showNum showDate t).1.length
        = t.length)
    ∧ (∀ r ∈ t,
        (coerceDate parseDate parseDateNum r).rainfall = r.rainfall
        ∧ (coerceDate parseDate parseDateNum r).maxtemp = r.maxtemp
        ∧ (coerceDate parseDate parseDateNum r).humidity = r.humidity
        ∧ (coerceDate parseDate parseDateNum r).wind = r.wind
        ∧ (coerceDate parseDate parseDateNum r).rainToday = r.rainToday
        ∧ (coerceDate parseDate parseDateNum r).rainTomorrow = r.rainTomorrow
        ∧ (coerceDate parseDate parseDateNum r).date
            = toDatetime parseDate parseDateNum r.date) := by
  refine ⟨rfl, by simp [coerceLoad], ?_⟩
  intro r _
  exact ⟨rfl, rfl, rfl, rfl, rfl, rfl, rfl⟩

/-- Witness for C9's amended theorem at a concrete table. -/
theorem coercion_mutation_frame_witness :
    (coerceLoad parseDateC parseDateNumC parseNumC showNumC showDateC
        [rowGood]).1.length = 1
    ∧ (coerceDate parseDateC parseDateNumC rowGood).rainfall = rowGood.rainfall :=
  ⟨(coercion_mutation_frame parseDateC parseDateNumC parseNumC showNumC
      showDateC [rowGood]).2.1,
   ((coercion_mutation_frame parseDateC parseDateNumC parseNumC showNumC
      showDateC [rowGood]).2.2 rowGood (by decide)).1⟩

/-! ### Filtering (`w.py` lines 205–238, `weather_insights.py` lines 85–122)

The canonical dataset row (Observation) after coercion: a required parsed
date and location, optional numerics, and rain flags that are `"Yes"`, `"No"`
or null.  Comparisons on null cells follow the source: a pandas comparison
with `NaN` and a SQL comparison with `NULL` are both non-true, so an active
clause rejects a row that is null in the referenced field. -/

structure Date : Type where
  year : ℕ
  month : ℕ
  day : ℕ
deriving DecidableEq

def dateLe (a b : Date) : Bool :=
  if a.year ≠ b.year then decide (a.year < b.year)
  else if a.month ≠ b.month then decide (a.month < b.month)
  else decide (a.day ≤ b.day)

structure Obs : Type where
  date : Date
  location : String
  rainfall : Option ℚ
  maxtemp : Option ℚ
  humidity : Option ℚ
  wind : Option ℚ
  rainToday : Option String
  rainTomorrow : Option String
deriving DecidableEq

inductive Season : Type
  | all
  | summer
  | autumn
  | winter
  | spring
deriving DecidableEq

/-- The southern-hemisphere season→months map of both files. -/
def seasonMonths : Season → List ℕ
  | .summer => [12, 1, 2]
  | .autumn => [3, 4, 5]
  | .winter => [6, 7, 8]
  | .spring => [9, 10, 11]
  | .all => []

inductive Choice : Type
  | all
  | yes
  | no
deriving DecidableEq

def choiceStr : Choice → String
  | .all => "All"
  | .yes => "Yes"
  | .no => "No"

/-- Which optional columns were resolved (`raintoday_col`, `raintom_col`,
`maxtemp_col` being non-`None`). -/
structure SchemaFlags : Type where
  hasRainToday : Bool
  hasRainTomorrow : Bool
  hasMaxTemp : Bool

/-- The sidebar state consumed by the CSV variant's filter block.  The
temperature slider always carries a (lo, hi) pair; the block applies it
whenever the max-temp column was resolved. -/
structure SelectionCsv : Type where
  locations : List String
  dateRange : Option (Date × Date)
  season : Season
  rainToday : Choice
  rainTomorrow : Choice
  tempLo : ℚ
  tempHi : ℚ

/-- Lines 208–209: `if selected_locations: ... isin(selected_locations)`. -/
def filterLocations (sel : SelectionCsv) (t : List Obs) : List Obs :=
  if sel.locations.isEmpty then t
  else t.filter (fun o => sel.locations.contains o.location)

/-- Lines 212–214: inclusive date interval, skipped unless both bounds are
present. -/
def filterDateRange (sel : SelectionCsv) (t : List Obs) : List Obs :=
  match sel.dateRange with
  | some p => t.filter (fun o => dateLe p.1 o.date && dateLe o.date p.2)
  | none => t

/-- Lines 217–225: month-of-season filter, skipped for `"All"`. -/
def filterSeason (sel : SelectionCsv) (t : List Obs) : List Obs :=
  if sel.season = .all then t
  else t.filter (fun o => (seasonMonths sel.season).contains o.date.month)

/-- Lines 228–229: `raintoday == choice`, skipped when the column is absent or
the choice is not Yes/No; equality with a null cell is false. -/
def filterRainToday (sch : SchemaFlags) (sel : SelectionCsv) (t : List Obs) :
    List Obs :=
  if sch.hasRainToday = true ∧ (sel.rainToday = .yes ∨ sel.rainToday = .no) then
    t.filter (fun o => o.rainToday == some (choiceStr sel.rainToday))
  else t

/-- Lines 231–232: same for rain-tomorrow. -/
def filterRainTomorrow (sch : SchemaFlags) (sel : SelectionCsv) (t : List Obs) :
    List Obs :=
  if sch.hasRainTomorrow = true ∧ (sel.rainTomorrow = .yes ∨ sel.rainTomorrow = .no) then
    t.filter (fun o => o.rainTomorrow == some (choiceStr sel.rainTomorrow))
  else t

/-- Lines 235–238: inclusive temperature interval, applied whenever the
max-temp column was resolved; a null max-temp fails both comparisons. -/
def filterTemp (sch : SchemaFlags) (sel : SelectionCsv) (t : List Obs) :
    List Obs :=
  if sch.hasMaxTemp = true then
    t.filter (fun o => match o.maxtemp with
      | some x => decide (sel.tempLo ≤ x) && decide (x ≤ sel.tempHi)
      | none => false)
  else t

/-- The whole apply-filters block, in source order. -/
def applyFilters (sch : SchemaFlags) (sel : SelectionCsv) (t : List Obs) :
    List Obs :=
  filterTemp sch sel
    (filterRainTomorrow sch sel
      (filterRainToday sch sel
        (filterSeason sel
          (filterDateRange sel
            (filterLocations sel t)))))

/-- The sidebar state consumed by `build_where_clause`; its temperature clause
is emitted only when `temp_range` is a pair. -/
structure SelectionSql : Type where
  locations : List String
  dateRange : Option (Date × Date)
  season : Season
  rainToday : Choice
  rainTomorrow : Choice
  tempRange : Option (ℤ × ℤ)

/-- The row-level meaning of the conditions appended by `build_where_clause`,
in source order (date, locations, rain flags, season, temperature).  A SQL
comparison against `NULL` is not true, so each predicate is false on a null
cell. -/
def sqlConditions (sel : SelectionSql) : List (Obs → Bool) :=
  (match sel.dateRange with
    | some p => [fun (o : Obs) => dateLe p.1 o.date && dateLe o.date p.2]
    | none => ([] : List (Obs → Bool)))
  ++ (if sel.locations.isEmpty then ([] : List (Obs → Bool))
      else [fun (o : Obs) => sel.locations.contains o.location])
  ++ (if sel.rainToday = .all then ([] : List (Obs → Bool))
      else [fun (o : Obs) => o.rainToday == some (choiceStr sel.rainToday)])
  ++ (if sel.rainTomorrow = .all then ([] : List (Obs → Bool))
      else [fun (o : Obs) => o.rainTomorrow == some (choiceStr sel.rainTomorrow)])
  ++ (if sel.season = .all then ([] : List (Obs → Bool))
      else [fun (o : Obs) => (seasonMonths sel.season).contains o.date.month])
  ++ (match sel.tempRange with
    | some p => [fun (o : Obs) => match o.maxtemp with
        | some x => decide ((p.1 : ℚ) ≤ x) && decide (x ≤ (p.2 : ℚ))
        | none => false]
    | none => ([] : List (Obs → Bool)))

/-- Semantics of `WHERE c1 AND c2 AND ...` over the generated conditions; no conditions
means no `WHERE` clause at all. -/
def sqlFilter (sel : SelectionSql) (t : List Obs) : List Obs :=
  t.filter (fun o => (sqlConditions sel).all (fun c => c o))

/-- C1: with every filter at its `"All"`/empty setting — no locations
selected, no date bounds, season All, both rain choices All, and the
temperature clause absent/disabled — both variants' filters return the dataset
unchanged. -/
theorem allAll_filter_identity (sch : SchemaFlags) (sel : SelectionCsv)
    (selq : SelectionSql) (t : List Obs)
    (h1 : sel.locations = []) (h2 : sel.dateRange = none)
    (h3 : sel.season = .all) (h4 : sel.rainToday = .all)
    (h5 : sel.rainTomorrow = .all) (h6 : sch.hasMaxTemp = false)
    (g1 : selq.locations = []) (g2 : selq.dateRange = none)
    (g3 : selq.season = .all) (g4 : selq.rainToday = .all)
    (g5 : selq.rainTomorrow = .all) (g6 : selq.tempRange = none) :
    applyFilters sch sel t = t ∧ sqlFilter selq t = t := by
  constructor
  · simp [applyFilters, filterTemp, filterRainTomorrow, filterRainToday,
      filterSeason, filterDateRange, filterLocations, h1, h2, h3, h4, h5, h6]
  · have hc : sqlConditions selq = [] := by
      simp [sqlConditions, g1, g2, g3, g4, g5, g6]
    simp [sqlFilter, hc]

def schAllCols : SchemaFlags := ⟨true, true, false⟩

def selCsvAll : SelectionCsv := ⟨[], none, .all, .all, .all, 0, 50⟩

def selSqlAll : SelectionSql := ⟨[], none, .all, .all, .all, none⟩

def obsA : Obs :=
  { date := ⟨2020, 1, 1⟩, location := "Sydney", rainfall := some 3,
    maxtemp := some 20, humidity := none, wind := none,
    rainToday := none, rainTomorrow := some "Yes" }

/-- Witness for C1 on a one-row dataset. -/
theorem allAll_filter_identity_witness :
    applyFilters schAllCols selCsvAll [obsA] = [obsA]
    ∧ sqlFilter selSqlAll [obsA] = [obsA] :=
  allAll_filter_identity schAllCols selCsvAll selSqlAll [obsA]
    rfl rfl rfl rfl rfl rfl rfl rfl rfl rfl rfl rfl

/-! Stage-wise subset lemmas for the CSV filter block. -/

theorem filterLocations_subset (sel : SelectionCsv) {o : Obs} {t : List Obs}
    (h : o ∈ filterLocations sel t) : o ∈ t := by
  rw [filterLocations] at h
  split_ifs at h
  · exact h
  · exact (List.mem_filter.mp h).1

theorem filterDateRange_subset (sel : SelectionCsv) {o : Obs} {t : List Obs}
    (h : o ∈ filterDateRange sel t) : o ∈ t := by
  rw [filterDateRange] at h
  cases hd : sel.dateRange with
  | none => rw [hd] at h; exact h
  | some p => rw [hd] at h; exact (List.mem_filter.mp h).1

theorem filterSeason_subset (sel : SelectionCsv) {o : Obs} {t : List Obs}
    (h : o ∈ filterSeason sel t) : o ∈ t := by
  rw [filterSeason] at h
  split_ifs at h
  · exact h
  · exact (List.mem_filter.mp h).1

theorem filterRainToday_subset (sch : SchemaFlags) (sel : SelectionCsv)
    {o : Obs} {t : List Obs} (h : o ∈ filterRainToday sch sel t) : o ∈ t := by
  rw [filterRainToday] at h
  split_ifs at h
  · exact (List.mem_filter.mp h).1
  · exact h

theorem filterRainTomorrow_subset (sch : SchemaFlags) (sel : SelectionCsv)
    {o : Obs} {t : List Obs} (h : o ∈ filterRainTomorrow sch sel t) : o ∈ t := by
  rw [filterRainTomorrow] at h
  split_ifs at h
  · exact (List.mem_filter.mp h).1
  · exact h

theorem filterTemp_subset (sch : SchemaFlags) (sel : SelectionCsv)
    {o : Obs} {t : List Obs} (h : o ∈ filterTemp sch sel t) : o ∈ t := by
  rw [filterTemp] at h
  split_ifs at h
  · exact (List.mem_filter.mp h).1
  · exact h

/-- C2: an active clause rejects an Observation that is null in the referenced
field — for the rain-today, rain-tomorrow and temperature clauses of the CSV
block and for the rain and temperature conditions of the SQL WHERE clause —
while a skipped clause (choice `"All"`, or the referenced optional column
absent) passes every row unchanged. -/
theorem null_vs_skipped_clause (sch : SchemaFlags) (sel : SelectionCsv)
    (selq : SelectionSql) (o : Obs) (t : List Obs) :
    (sch.hasRainToday = true → (sel.rainToday = .yes ∨ sel.rainToday = .no) →
      o.rainToday = none → o ∉ applyFilters sch sel t)
    ∧ (sch.hasRainTomorrow = true →
      (sel.rainTomorrow = .yes ∨ sel.rainTomorrow = .no) →
      o.rainTomorrow = none → o ∉ applyFilters sch sel t)
    ∧ (sch.hasMaxTemp = true → o.maxtemp = none → o ∉ applyFilters sch sel t)
    ∧ (sel.rainToday = .all → filterRainToday sch sel t = t)
    ∧ (sel.rainTomorrow = .all → filterRainTomorrow sch sel t = t)
    ∧ (sch.hasMaxTemp = false → filterTemp sch sel t = t)
    ∧ (selq.rainToday ≠ .all → o.rainToday = none → o ∉ sqlFilter selq t)
    ∧ (∀ lo hi, selq.tempRange = some (lo, hi) → o.maxtemp = none →
        o ∉ sqlFilter selq t) := by
  refine ⟨?_, ?_, ?_, ?_, ?_, ?_, ?_, ?_⟩
  · intro hcol hact hnull hmem
    have h2 : o ∈ filterRainToday sch sel
        (filterSeason sel (filterDateRange sel (filterLocations sel t))) :=
      filterRainTomorrow_subset sch sel (filterTemp_subset sch sel hmem)
    rw [filterRainToday, if_pos ⟨hcol, hact⟩] at h2
    have := (List.mem_filter.mp h2).2
    simp [hnull] at this
  · intro hcol hact hnull hmem
    have h2 : o ∈ filterRainTomorrow sch sel (filterRainToday sch sel
        (filterSeason sel (filterDateRange sel (filterLocations sel t)))) :=
      filterTemp_subset sch sel hmem
    rw [filterRainTomorrow, if_pos ⟨hcol, hact⟩] at h2
    have := (List.mem_filter.mp h2).2
    simp [hnull] at this
  · intro hcol hnull hmem
    rw [applyFilters, filterTemp, if_pos hcol] at hmem
    have := (List.mem_filter.mp hmem).2
    simp [hnull] at this
  · intro hall
    rw [filterRainToday, if_neg]
    rintro ⟨-, hy | hn⟩
    · rw [hall] at hy; cases hy
    · rw [hall] at hn; cases hn
  · intro hall
    rw [filterRainTomorrow, if_neg]
    rintro ⟨-, hy | hn⟩
    · rw [hall] at hy; cases hy
    · rw [hall] at hn; cases hn
  · intro hoff
    rw [filterTemp, if_neg]
    simp [hoff]
  · intro hact hnull hmem
    have hall := (List.mem_filter.mp hmem).2
    rw [List.all_eq_true] at hall
    have hc : (fun o : Obs => o.rainToday == some (choiceStr selq.rainToday))
        ∈ sqlConditions selq := by
      rw [sqlConditions]
      refine List.mem_append.mpr (Or.inl ?_)
      refine List.mem_append.mpr (Or.inl ?_)
      refine List.mem_append.mpr (Or.inl ?_)
      refine List.mem_append.mpr (Or.inr ?_)
      rw [if_neg hact]
      exact List.mem_singleton.mpr rfl
    have := hall _ hc
    simp [hnull] at this
  · intro lo hi htr hnull hmem
    have hall := (List.mem_filter.mp hmem).2
    rw [List.all_eq_true] at hall
    have hc : (fun o : Obs => match o.maxtemp with
        | some x => decide ((lo : ℚ) ≤ x) && decide (x ≤ (hi : ℚ))
        | none => false) ∈ sqlConditions selq := by
      rw [sqlConditions]
      refine List.mem_append.mpr (Or.inr ?_)
      rw [htr]
      exact List.mem_singleton.mpr rfl
    have := hall _ hc
    simp [hnull] at this

def schCsvW : SchemaFlags := ⟨true, true, true⟩

def selCsvActive : SelectionCsv := ⟨[], none, .all, .yes, .all, 0, 50⟩

def selSqlActive : SelectionSql := ⟨[], none, .all, .yes, .all, none⟩

/-- Witness for C2: `obsA` has a null rain-today cell, so an active
`Rain Today = Yes` clause rejects it in both variants, while with every clause
skipped both variants keep it (the latter via the C1 theorem's witness data,
recomputed here). -/
theorem null_vs_skipped_clause_witness :
    obsA ∉ applyFilters schCsvW selCsvActive [obsA]
    ∧ filterRainToday schCsvW selCsvAll [obsA] = [obsA]
    ∧ obsA ∉ sqlFilter selSqlActive [obsA] :=
  ⟨(null_vs_skipped_clause schCsvW selCsvActive selSqlActive obsA [obsA]).1
      rfl (Or.inl rfl) rfl,
   (null_vs_skipped_clause schCsvW selCsvAll selSqlActive obsA [obsA]).2.2.2.1
      rfl,
   (null_vs_skipped_clause schCsvW selCsvActive selSqlActive obsA [obsA]).2.2.2.2.2.2.1
      (by decide) rfl⟩

/-! ### Category buckets (`w.py` lines 366–370 and 390–394,
`weather_insights.py` lines 289–293 and 313–317)

`Bucket3.low/medium/high` stand for the labels Low/Medium/High of the humidity
views and Calm/Moderate/Strong of the wind views.  The CSV variant buckets
with `pd.cut`, whose intervals are left-exclusive/right-inclusive and whose
out-of-range values get no category; the SQL variant buckets with a `CASE`
whose `BETWEEN` is inclusive on both ends and whose `ELSE` branch also
catches a `NULL` cell. -/

inductive Bucket3 : Type
  | low
  | medium
  | high
deriving DecidableEq

/-- Embedding of `pd.cut(tmp[humidity_col], bins=[-1, 50, 80, 200], labels=[Low, Medium,
High])`. -/
def cutHumidity (h : ℚ) : Option Bucket3 :=
  if -1 < h ∧ h ≤ 50 then some .low
  else if 50 < h ∧ h ≤ 80 then some .medium
  else if 80 < h ∧ h ≤ 200 then some .high
  else none

/-- Embedding of `pd.cut(tmp[windspeed_col], bins=[-1, 15, 30, 1e6], labels=[Calm,
Moderate, Strong])`. -/
def cutWind (w : ℚ) : Option Bucket3 :=
  if -1 < w ∧ w ≤ 15 then some .low
  else if 15 < w ∧ w ≤ 30 then some .medium
  else if 30 < w ∧ w ≤ 1000000 then some .high
  else none

/-- Embedding of `CASE WHEN humidity3pm > 80 THEN High WHEN humidity3pm BETWEEN 50 AND 80
THEN Medium ELSE Low END`; with a `NULL` cell neither WHEN is true, so the
ELSE branch yields Low. -/
def sqlHumidityBucket (h : Option ℚ) : Bucket3 :=
  match h with
  | some x => if x > 80 then .high else if 50 ≤ x ∧ x ≤ 80 then .medium else .low
  | none => .low

/-- Embedding of `CASE WHEN windspeed3pm > 30 THEN Strong WHEN windspeed3pm BETWEEN 15 AND
30 THEN Moderate ELSE Calm END`. -/
def sqlWindBucket (w : Option ℚ) : Bucket3 :=
  match w with
  | some x => if x > 30 then .high else if 15 ≤ x ∧ x ≤ 30 then .medium else .low
  | none => .low

/-- Counterexample for C5: the two implementations do NOT assign every
boundary value to the same bucket.  Humidity exactly 50 is Low under `pd.cut`
(the bin `(-1, 50]` is right-inclusive) but Medium under the SQL `BETWEEN 50
AND 80`; wind exactly 15 is likewise Calm under `pd.cut` but Moderate in
SQL. -/
theorem bucket_boundary_counterexample :
    cutHumidity 50 = some Bucket3.low
    ∧ sqlHumidityBucket (some 50) = Bucket3.medium
    ∧ Bucket3.low ≠ Bucket3.medium
    ∧ cutWind 15 = some Bucket3.low
    ∧ sqlWindBucket (some 15) = Bucket3.medium := by
  refine ⟨by decide, by decide, by decide, by decide, by decide⟩

/-- C5 as amended: within the ranges covered by the `pd.cut` bins, every
non-null value falls into exactly one bucket in each implementation; the other
boundary values (humidity 80, wind 30) land in Medium in both; and the two
implementations agree everywhere except at humidity exactly 50 and wind
exactly 15, which `pd.cut` places in the lower bucket (Low/Calm) and the SQL
`BETWEEN` places in Medium/Moderate. -/
theorem bucket_boundary_amended (q : ℚ) :
    (-1 < q ∧ q ≤ 200 → ∃ b, cutHumidity q = some b)
    ∧ (-1 < q ∧ q ≤ 1000000 → ∃ b, cutWind q = some b)
    ∧ (-1 < q ∧ q ≤ 200 → q ≠ 50 →
        cutHumidity q = some (sqlHumidityBucket (some q)))
    ∧ (q = 50 → cutHumidity q = some Bucket3.low
        ∧ sqlHumidityBucket (some q) = Bucket3.medium)
    ∧ (q = 80 → cutHumidity q = some Bucket3.medium
        ∧ sqlHumidityBucket (some q) = Bucket3.medium)
    ∧ (-1 < q ∧ q ≤ 1000000 → q ≠ 15 →
        cutWind q = some (sqlWindBucket (some q)))
    ∧ (q = 15 → cutWind q = some Bucket3.low
        ∧ sqlWindBucket (some q) = Bucket3.medium)
    ∧ (q = 30 → cutWind q = some Bucket3.medium
        ∧ sqlWindBucket (some q) = Bucket3.medium) := by
  refine ⟨?_, ?_, ?_, ?_, ?_, ?_, ?_, ?_⟩
  · rintro ⟨hlo, hhi⟩
    rw [cutHumidity]
    split_ifs with h1 h2 h3
    · exact ⟨.low, rfl⟩
    · exact ⟨.medium, rfl⟩
    · exact ⟨.high, rfl⟩
    · exfalso
      push_neg at h1 h2 h3
      have := h1 hlo
      have := h2 (by linarith)
      have := h3 (by linarith)
      linarith
  · rintro ⟨hlo, hhi⟩
    rw [cutWind]
    split_ifs with h1 h2 h3
    · exact ⟨.low, rfl⟩
    · exact ⟨.medium, rfl⟩
    · exact ⟨.high, rfl⟩
    · exfalso
      push_neg at h1 h2 h3
      have := h1 hlo
      have := h2 (by linarith)
      have := h3 (by linarith)
      linarith
  · rintro ⟨hlo, hhi⟩ hne
    rw [cutHumidity, sqlHumidityBucket]
    rcases lt_or_le q 50 with hc | hc
    · rw [if_pos ⟨hlo, le_of_lt hc⟩, if_neg (by intro h; linarith),
        if_neg (by rintro ⟨h, -⟩; linarith)]
    · have hc' : 50 < q := lt_of_le_of_ne hc (fun h => hne h.symm)
      rcases le_or_lt q 80 with hd | hd
      · rw [if_neg (by rintro ⟨-, h⟩; linarith), if_pos ⟨hc', hd⟩,
          if_neg (by intro h; linarith), if_pos ⟨by linarith, hd⟩]
      · rw [if_neg (by rintro ⟨-, h⟩; linarith),
          if_neg (by rintro ⟨-, h⟩; linarith), if_pos ⟨hd, hhi⟩, if_pos hd]
  · rintro rfl
    exact ⟨by decide, by decide⟩
  · rintro rfl
    exact ⟨by decide, by decide⟩
  · rintro ⟨hlo, hhi⟩ hne
    rw [cutWind, sqlWindBucket]
    rcases lt_or_le q 15 with hc | hc
    · rw [if_pos ⟨hlo, le_of_lt hc⟩, if_neg (by intro h; linarith),
        if_neg (by rintro ⟨h, -⟩; linarith)]
    · have hc' : 15 < q := lt_of_le_of_ne hc (fun h => hne h.symm)
      rcases le_or_lt q 30 with hd | hd
      · rw [if_neg (by rintro ⟨-, h⟩; linarith), if_pos ⟨hc', hd⟩,
          if_neg (by intro h; linarith), if_pos ⟨by linarith, hd⟩]
      · rw [if_neg (by rintro ⟨-, h⟩; linarith),
          if_neg (by rintro ⟨-, h⟩; linarith), if_pos ⟨hd, hhi⟩, if_pos hd]
  · rintro rfl
    exact ⟨by decide, by decide⟩
  · rintro rfl
    exact ⟨by decide, by decide⟩

/-- Witness for C5's amended theorem: humidity 65 is Medium in both
implementations; humidity 50 splits Low vs Medium; wind 7 is Calm in both. -/
theorem bucket_boundary_amended_witness :
    cutHumidity 65 = some (sqlHumidityBucket (some 65))
    ∧ (cutHumidity 50 = some Bucket3.low
        ∧ sqlHumidityBucket (some 50) = Bucket3.medium)
    ∧ cutWind 7 = some (sqlWindBucket (some 7)) :=
  ⟨(bucket_boundary_amended 65).2.2.1 (by norm_num) (by norm_num),
   (bucket_boundary_amended 50).2.2.2.1 rfl,
   (bucket_boundary_amended 7).2.2.2.2.2.1 (by norm_num) (by norm_num)⟩

/-! ### Rain-probability-by-humidity views (`w.py` lines 362–379,
`weather_insights.py` lines 288–299)

The CSV variant restricts to the humidity and rain-tomorrow columns, drops
rows null in either (`dropna`), buckets with `pd.cut` (rows falling in no bin
get no category and are dropped by the groupby), and computes
`(s == "Yes").mean() * 100` per bucket.  The groupby is over the `pd.cut`
categorical with pandas' default `observed=False`, so the `.apply` runs over
all three categories: an empty bucket appears in the result table with a `NaN`
probability (the mean of an empty boolean series), embedded below as `none`.
The SQL variant has no null filter: every row of the filtered table is
bucketed by the CASE expression (a null humidity falls into Low), the
numerator counts `raintomorrow = 'Yes'` rows (a null outcome is not counted),
the denominator is `COUNT(*)` over the whole bucket, the ratio is rounded to 2
decimals, and its `GROUP BY` emits only the buckets that actually contain a
row.  The query orders its output rows by probability; the embedding lists
buckets in category order and the theorems below speak about which rows
appear, not about their order. -/

def humPairs (t : List Obs) : List (ℚ × String) :=
  t.filterMap (fun o => match o.humidity, o.rainTomorrow with
    | some h, some r => some (h, r)
    | _, _ => none)

def yesPct (xs : List (ℚ × String)) : ℚ :=
  (((xs.filter (fun p => p.2 == "Yes")).length : ℚ) / (xs.length : ℚ)) * 100

def pandasHumidityGroup (t : List Obs) (b : Bucket3) : List (ℚ × String) :=
  (humPairs t).filter (fun pr => cutHumidity pr.1 == some b)

def pandasHumidityProb (t : List Obs) : List (Bucket3 × Option ℚ) :=
  [Bucket3.low, Bucket3.medium, Bucket3.high].map (fun b =>
    (b, if (pandasHumidityGroup t b).isEmpty then none
        else some (yesPct (pandasHumidityGroup t b))))

/-- Embedding of `ROUND(x, 2)` on a nonnegative numeric: half away from zero. -/
def round2 (q : ℚ) : ℚ :=
  (⌊q * 100 + 1 / 2⌋ : ℚ) / 100

def sqlHumidityGroup (t : List Obs) (b : Bucket3) : List Obs :=
  t.filter (fun o => sqlHumidityBucket o.humidity == b)

def sqlYesPct (xs : List Obs) : ℚ :=
  round2 (((xs.filter (fun o => o.rainTomorrow == some "Yes")).length : ℚ)
    * 100 / (xs.length : ℚ))

def sqlHumidityProb (t : List Obs) : List (Bucket3 × ℚ) :=
  [Bucket3.low, Bucket3.medium, Bucket3.high].filterMap (fun b =>
    if (sqlHumidityGroup t b).isEmpty then none
    else some (b, sqlYesPct (sqlHumidityGroup t b)))

def obsHumNull : Obs :=
  { date := ⟨2020, 1, 1⟩, location := "S", rainfall := none, maxtemp := none,
    humidity := none, wind := none, rainToday := none,
    rainTomorrow := some "Yes" }

def obsHum (h : ℚ) (r : String) : Obs :=
  { date := ⟨2020, 1, 1⟩, location := "S", rainfall := none, maxtemp := none,
    humidity := some h, wind := none, rainToday := none,
    rainTomorrow := some r }

def rowsHum4 : List Obs :=
  [obsHum 10 "Yes", obsHum 20 "Yes", obsHum 30 "No", obsHum 40 "No"]

/-- Counterexample for C6, refuting two parts of the claim.  Null exclusion
fails for the SQL variant: a single row with null humidity and outcome Yes is
excluded by the CSV variant (all buckets empty) but is bucketed as Low with
probability 100 by the SQL variant.  Empty-bucket absence fails for the CSV
variant: on a single row with humidity 90 the Low and Medium buckets are empty
after null-exclusion, yet they appear in the result table (with a null `NaN`
probability, not 0%) instead of being absent. -/
theorem humidity_prob_null_counterexample :
    sqlHumidityProb [obsHumNull] = [(Bucket3.low, 100)]
    ∧ pandasHumidityProb [obsHumNull]
        = [(Bucket3.low, none), (Bucket3.medium, none), (Bucket3.high, none)]
    ∧ pandasHumidityProb [obsHum 90 "Yes"]
        = [(Bucket3.low, none), (Bucket3.medium, none),
            (Bucket3.high, some 100)]
    ∧ ([(Bucket3.low, (100 : ℚ))] : List (Bucket3 × ℚ)) ≠ []
    ∧ (Bucket3.low, (none : Option ℚ))
        ∈ [(Bucket3.low, (none : Option ℚ)), (Bucket3.medium, none),
            (Bucket3.high, some 100)] := by
  have hlow : sqlHumidityGroup [obsHumNull] Bucket3.low = [obsHumNull] := by
    decide
  have hmed : sqlHumidityGroup [obsHumNull] Bucket3.medium = [] := by decide
  have hhigh : sqlHumidityGroup [obsHumNull] Bucket3.high = [] := by decide
  have h1 : sqlYesPct [obsHumNull] = 100 := by
    have hf : [obsHumNull].filter (fun o => o.rainTomorrow == some "Yes")
        = [obsHumNull] := by decide
    rw [sqlYesPct, hf, round2]
    norm_num
  have hgl : pandasHumidityGroup [obsHum 90 "Yes"] Bucket3.low = [] := by
    decide
  have hgm : pandasHumidityGroup [obsHum 90 "Yes"] Bucket3.medium = [] := by
    decide
  have hgh : pandasHumidityGroup [obsHum 90 "Yes"] Bucket3.high
      = [(90, "Yes")] := by decide
  have hyv : yesPct [((90 : ℚ), "Yes")] = 100 := by
    have hfy : ([((90 : ℚ), "Yes")].filter (fun p => p.2 == "Yes"))
        = [(90, "Yes")] := by decide
    rw [yesPct, hfy]
    norm_num
  refine ⟨?_, by decide, ?_, by decide, by decide⟩
  · rw [sqlHumidityProb]
    simp only [List.filterMap_cons, List.filterMap_nil, hlow, hmed, hhigh, h1]
    rfl
  · rw [pandasHumidityProb]
    simp only [List.map_cons, List.map_nil, hgl, hgm, hgh, hyv,
      List.isEmpty_nil, List.isEmpty_cons, if_true, if_false]
    rfl

theorem bucket3_filterMap_mem {f : Bucket3 → Option (Bucket3 × ℚ)}
    (hf : ∀ a pr, f a = some pr → pr.1 = a) (b : Bucket3) (p : ℚ) :
    ((b, p) ∈ [Bucket3.low, Bucket3.medium, Bucket3.high].filterMap f
      ↔ f b = some (b, p)) := by
  rw [List.mem_filterMap]
  constructor
  · rintro ⟨a, -, hfa⟩
    have ha : b = a := hf a (b, p) hfa
    rw [← ha] at hfa
    exact hfa
  · intro hfb
    exact ⟨b, by cases b <;> simp, hfb⟩

theorem bucket3_map_mem {g : Bucket3 → Option ℚ} (b : Bucket3) (v : Option ℚ) :
    ((b, v) ∈ [Bucket3.low, Bucket3.medium, Bucket3.high].map
        (fun a => (a, g a)) ↔ v = g b) := by
  constructor
  · intro h
    obtain ⟨a, -, ha⟩ := List.mem_map.mp h
    have h1 : a = b := congrArg Prod.fst ha
    have h2 : g a = v := congrArg Prod.snd ha
    rw [← h2, h1]
  · intro hv
    exact List.mem_map.mpr ⟨b, by cases b <;> simp, by rw [hv]⟩

/-- C6 as amended: neither implementation ever reports an empty bucket as 0%,
but they differ in how an empty bucket is (not) reported.  The CSV variant
first drops every row with a null humidity or null rain-tomorrow cell
(`humPairs`), computes exactly `100 × countYes / count` per bucket, and its
result table always lists all three buckets — an empty bucket appears with a
null (`NaN`) probability, neither 0% nor absent.  The SQL variant omits empty
buckets entirely, but does not exclude nulls: a row with null humidity is
bucketed as Low, a row with null rain-tomorrow counts in the denominator but
not the numerator, and the reported ratio is rounded to 2 decimal places. -/
theorem humidity_prob_amended (t : List Obs) (b : Bucket3) (p : ℚ) :
    ((b, some p) ∈ pandasHumidityProb t ↔
      pandasHumidityGroup t b ≠ [] ∧ p = yesPct (pandasHumidityGroup t b))
    ∧ ((b, (none : Option ℚ)) ∈ pandasHumidityProb t ↔
      pandasHumidityGroup t b = [])
    ∧ (pandasHumidityProb t).length = 3
    ∧ ((b, p) ∈ sqlHumidityProb t ↔
      sqlHumidityGroup t b ≠ [] ∧ p = sqlYesPct (sqlHumidityGroup t b))
    ∧ (∀ o rest, o.humidity = none ∨ o.rainTomorrow = none →
        humPairs (o :: rest) = humPairs rest)
    ∧ (∀ o ∈ t, o.humidity = none → o ∈ sqlHumidityGroup t Bucket3.low) := by
  refine ⟨?_, ?_, ?_, ?_, ?_, ?_⟩
  · rw [pandasHumidityProb, bucket3_map_mem]
    split_ifs with h
    · exact iff_of_false (by simp)
        (fun hc => hc.1 (List.isEmpty_iff.mp h))
    · simp only [Option.some.injEq]
      constructor
      · intro he
        exact ⟨fun hc => h (by rw [hc]; rfl), he⟩
      · exact fun hc => hc.2
  · rw [pandasHumidityProb, bucket3_map_mem]
    split_ifs with h
    · exact iff_of_true rfl (List.isEmpty_iff.mp h)
    · exact iff_of_false (by simp) (fun hc => h (by rw [hc]; rfl))
  · rw [pandasHumidityProb]
    rfl
  · rw [sqlHumidityProb, bucket3_filterMap_mem]
    · split_ifs with h
      · exact iff_of_false (by simp)
          (fun hc => hc.1 (List.isEmpty_iff.mp h))
      · simp only [Option.some.injEq, Prod.mk.injEq, true_and]
        rw [List.isEmpty_iff] at h
        constructor
        · intro he; exact ⟨h, he.symm⟩
        · intro hc; exact hc.2.symm
    · intro a pr hpr
      split_ifs at hpr
      cases hpr; rfl
  · intro o rest hnull
    rw [humPairs, humPairs, List.filterMap_cons]
    rcases hnull with h | h
    · rw [h]
    · rw [h]
      cases o.humidity <;> rfl
  · intro o hmem hnull
    rw [sqlHumidityGroup, List.mem_filter]
    refine ⟨hmem, ?_⟩
    rw [hnull]
    rfl

/-- Witness for C6's amended theorem: on the spec's own example, four rows in
bucket Low with outcomes Yes, Yes, No, No give probability exactly 50, and the
empty High bucket appears with a null probability. -/
theorem humidity_prob_amended_witness :
    (Bucket3.low, some (50 : ℚ)) ∈ pandasHumidityProb rowsHum4
    ∧ (Bucket3.high, (none : Option ℚ)) ∈ pandasHumidityProb rowsHum4 :=
  ⟨(humidity_prob_amended rowsHum4 Bucket3.low 50).1.mpr
    ⟨by decide, by
      have hx : pandasHumidityGroup rowsHum4 Bucket3.low
          = [(10, "Yes"), (20, "Yes"), (30, "No"), (40, "No")] := by decide
      have hy : ([((10 : ℚ), "Yes"), (20, "Yes"), (30, "No"),
          (40, "No")].filter (fun p => p.2 == "Yes"))
          = [(10, "Yes"), (20, "Yes")] := by decide
      rw [hx, yesPct, hy]
      norm_num⟩,
   (humidity_prob_amended rowsHum4 Bucket3.high 0).2.1.mpr (by decide)⟩


/-! ### Top-5 rainiest cities (`w.py` lines 272–275,
`weather_insights.py` lines 186–193)

The CSV view is
`filtered_df.groupby(location_col)[rainfall_col].mean().nlargest(5)`:
`groupby` (with its default `sort=True`) produces one entry per distinct
location, indexed in ascending location order; `.mean()` averages the non-null
rainfall values of the group and is `NaN` for a group whose values are all
null; `.nlargest(5)` drops `NaN` entries, and returns the 5 largest values in
descending order, keeping the earlier series entry (`keep='first'`) among
ties.  Because the series index is ascending and its keys are distinct,
`nlargest` is exactly: sort by (mean descending, location ascending), take 5 —
which is `rankRel` below.

The SQL view is `SELECT location, ROUND(AVG(rainfall)::numeric, 2) AS avg_rain
... GROUP BY location ORDER BY avg_rain DESC LIMIT 5`.  `AVG` ignores nulls
and is `NULL` for a group whose rainfall values are all null; Postgres'
`ORDER BY ... DESC` sorts `NULL` values FIRST, so a `NULL` average is not
dropped — it sorts above every non-null average; and the order among equal
averages is unspecified.  The query is therefore embedded relationally:
`sqlTop5Valid t out` holds exactly when `out` is the 5-prefix of some
permutation of the per-location average rows that is sorted by the
nulls-first/descending order `nullsFirstGe` — every output the engine may
produce is such a prefix, and each such prefix is a possible output. -/

/-- Lexicographic code-point comparison of strings (Python's string order),
written structurally over the character lists. -/
def strLeB : List Char → List Char → Bool
  | [], _ => true
  | _ :: _, [] => false
  | c :: a, d :: b =>
    if c.toNat < d.toNat then true
    else if d.toNat < c.toNat then false
    else strLeB a b

theorem strLeB_total : ∀ a b : List Char, strLeB a b = true ∨ strLeB b a = true
  | [], _ => Or.inl rfl
  | _ :: _, [] => Or.inr rfl
  | c :: a, d :: b => by
    rw [strLeB, strLeB]
    by_cases h1 : c.toNat < d.toNat
    · left; rw [if_pos h1]
    · by_cases h2 : d.toNat < c.toNat
      · right; rw [if_pos h2]
      · rw [if_neg h1, if_neg h2, if_neg h2, if_neg h1]
        exact strLeB_total a b

theorem strLeB_trans : ∀ a b c : List Char,
    strLeB a b = true → strLeB b c = true → strLeB a c = true
  | [], _, _ => fun _ _ => rfl
  | _ :: _, [], _ => fun h _ => by cases h
  | _ :: _, _ :: _, [] => fun _ h => by cases h
  | x :: a, y :: b, z :: c => by
    rw [strLeB, strLeB, strLeB]
    intro hab hbc
    by_cases h3 : y.toNat < x.toNat
    · rw [if_neg (show ¬ x.toNat < y.toNat by omega), if_pos h3] at hab
      cases hab
    by_cases h4 : z.toNat < y.toNat
    · rw [if_neg (show ¬ y.toNat < z.toNat by omega), if_pos h4] at hbc
      cases hbc
    by_cases h1 : x.toNat < y.toNat
    · rw [if_pos (show x.toNat < z.toNat by omega)]
    · rw [if_neg h1, if_neg h3] at hab
      by_cases h2 : y.toNat < z.toNat
      · rw [if_pos (show x.toNat < z.toNat by omega)]
      · rw [if_neg h2, if_neg h4] at hbc
        rw [if_neg (show ¬ x.toNat < z.toNat by omega),
          if_neg (show ¬ z.toNat < x.toNat by omega)]
        exact strLeB_trans a b c hab hbc

def rankRel (a b : String × ℚ) : Prop :=
  b.2 < a.2 ∨ (a.2 = b.2 ∧ strLeB a.1.data b.1.data = true)

instance rankRelDec : DecidableRel rankRel :=
  fun a b =>
    decidable_of_iff (b.2 < a.2 ∨ (a.2 = b.2 ∧ strLeB a.1.data b.1.data = true))
      Iff.rfl

instance : IsTotal (String × ℚ) rankRel :=
  ⟨by
    intro a b
    rcases lt_trichotomy a.2 b.2 with h | h | h
    · exact Or.inr (Or.inl h)
    · rcases strLeB_total a.1.data b.1.data with hle | hle
      · exact Or.inl (Or.inr ⟨h, hle⟩)
      · exact Or.inr (Or.inr ⟨h.symm, hle⟩)
    · exact Or.inl (Or.inl h)⟩

instance : IsTrans (String × ℚ) rankRel :=
  ⟨by
    intro a b c hab hbc
    rcases hab with h1 | ⟨h1eq, h1le⟩
    · rcases hbc with h2 | ⟨h2eq, -⟩
      · exact Or.inl (lt_trans h2 h1)
      · exact Or.inl (by rw [← h2eq]; exact h1)
    · rcases hbc with h2 | ⟨h2eq, h2le⟩
      · exact Or.inl (by rw [h1eq]; exact h2)
      · exact Or.inr ⟨h1eq.trans h2eq, strLeB_trans _ _ _ h1le h2le⟩⟩

/-- The groupby index: distinct locations in ascending order. -/
def locKeys (t : List Obs) : List String :=
  List.insertionSort (fun a b => strLeB a.data b.data = true)
    (t.map (fun o => o.location)).dedup

/-- The non-null rainfall values of one location's group. -/
def groupVals (t : List Obs) (l : String) : List ℚ :=
  t.filterMap (fun o => if o.location = l then o.rainfall else none)

/-- Embedding of `.mean()` of one group: skips nulls, undefined (`NaN`) when no value
remains. -/
def groupMean (t : List Obs) (l : String) : Option ℚ :=
  if (groupVals t l).isEmpty then none
  else some ((groupVals t l).sum / ((groupVals t l).length : ℚ))

/-- The mean series in index order, `NaN` entries dropped (as `nlargest`
does). -/
def meanSeries (t : List Obs) : List (String × ℚ) :=
  (locKeys t).filterMap (fun l => (groupMean t l).map (fun m => (l, m)))

/-- Embedding of `.nlargest(5)` with `keep='first'` over the ascending-index series. -/
def top5Rain (t : List Obs) : List (String × ℚ) :=
  (List.insertionSort rankRel (meanSeries t)).take 5

def obsLoc (l : String) (r : ℚ) : Obs :=
  { date := ⟨2020, 1, 1⟩, location := l, rainfall := some r, maxtemp := none,
    humidity := none, wind := none, rainToday := none, rainTomorrow := none }

def rowsTie : List Obs := [obsLoc "B" 5, obsLoc "A" 5]

/-- Embedding of `AVG(rainfall)` per location with the `ROUND(..., 2)` of the
SELECT list: ignores nulls, `NULL` when no non-null value exists. -/
def sqlAvgRain (t : List Obs) (l : String) : Option ℚ :=
  if (groupVals t l).isEmpty then none
  else some (round2 ((groupVals t l).sum / ((groupVals t l).length : ℚ)))

/-- The `GROUP BY location` result rows (one per distinct location; used as a
reference multiset — the engine's pre-`ORDER BY` row order is irrelevant). -/
def sqlGroupRows (t : List Obs) : List (String × Option ℚ) :=
  ((t.map (fun o => o.location)).dedup).map (fun l => (l, sqlAvgRain t l))

/-- Row `a` sorts no lower than row `b` under Postgres
`ORDER BY avg_rain DESC`: `NULL` sorts first, then descending values. -/
def nullsFirstGe (a b : String × Option ℚ) : Prop :=
  a.2 = none ∨ (∃ x y, a.2 = some x ∧ b.2 = some y ∧ y ≤ x)

/-- Relational semantics of the SQL top-5 query: `out` is a possible result
iff it is the 5-prefix of some `nullsFirstGe`-sorted permutation of the group
rows (the tie order among equal averages is unspecified, so any sorted
permutation is allowed). -/
def sqlTop5Valid (t : List Obs) (out : List (String × Option ℚ)) : Prop :=
  ∃ full : List (String × Option ℚ),
    full.Perm (sqlGroupRows t) ∧ List.Pairwise nullsFirstGe full
    ∧ out = full.take 5

def obsLocNull (l : String) : Obs :=
  { date := ⟨2020, 1, 1⟩, location := l, rainfall := none, maxtemp := none,
    humidity := none, wind := none, rainToday := none, rainTomorrow := none }

def rowsNullAvg : List Obs := [obsLocNull "N", obsLoc "A" 5]

theorem sqlGroupRows_example :
    sqlGroupRows rowsNullAvg = [("N", none), ("A", some 5)] := by
  have hN : sqlAvgRain rowsNullAvg "N" = none := by decide
  have hvA : groupVals rowsNullAvg "A" = [5] := by decide
  have hA : sqlAvgRain rowsNullAvg "A" = some 5 := by
    rw [sqlAvgRain, hvA, round2]
    norm_num
  have hd : ((rowsNullAvg.map (fun o => o.location)).dedup) = ["N", "A"] := by
    decide
  rw [sqlGroupRows, hd]
  simp [hN, hA]

theorem sqlTop5Valid_example :
    sqlTop5Valid rowsNullAvg [("N", none), ("A", some 5)] := by
  refine ⟨[("N", none), ("A", some 5)], ?_, ?_, rfl⟩
  · rw [sqlGroupRows_example]
  · constructor
    · intro b hb
      exact Or.inl rfl
    · constructor
      · intro b hb
        cases hb
      · exact List.Pairwise.nil

/-- Counterexample for C7, refuting two parts of the claim.  Tie-break: in a
dataset where location B appears before location A and both have mean rainfall
5, the CSV view returns A before B (the groupby index is sorted ascending and
`nlargest` keeps the earlier series entry), not the first-encountered order
B, A.  All-null exclusion: on a table whose location N has only null rainfall,
the SQL query's `ORDER BY avg_rain DESC` sorts N's `NULL` average FIRST, so
`[(N, NULL), (A, 5)]` — with the all-null group present, at the top — is the
query's result, not a ranking that excludes N. -/
theorem top5_tiebreak_counterexample :
    top5Rain rowsTie = [("A", 5), ("B", 5)]
    ∧ ([("A", (5 : ℚ)), ("B", 5)] : List (String × ℚ))
        ≠ [("B", 5), ("A", 5)]
    ∧ sqlTop5Valid rowsNullAvg [("N", none), ("A", some 5)]
    ∧ ("N", (none : Option ℚ))
        ∈ [(("N" : String), (none : Option ℚ)), ("A", some 5)] := by
  have h1 : locKeys rowsTie = ["A", "B"] := by decide
  have hvA : groupVals rowsTie "A" = [5] := by decide
  have hvB : groupVals rowsTie "B" = [5] := by decide
  have h2 : groupMean rowsTie "A" = some 5 := by
    rw [groupMean, hvA]
    norm_num
  have h3 : groupMean rowsTie "B" = some 5 := by
    rw [groupMean, hvB]
    norm_num
  have h4 : meanSeries rowsTie = [("A", 5), ("B", 5)] := by
    rw [meanSeries, h1]
    simp [List.filterMap_cons, h2, h3]
  have h5 : List.insertionSort rankRel [("A", (5 : ℚ)), ("B", 5)]
      = [("A", 5), ("B", 5)] := by decide
  refine ⟨?_, by decide, sqlTop5Valid_example, by decide⟩
  rw [top5Rain, h4, h5]
  rfl

/-- C7 as amended: the CSV view groups by location, takes the arithmetic mean
of rainfall ignoring nulls per group, and returns the at-most-5 top groups by
mean in descending order — but ties are broken by ascending location order
(a consequence of the sorted groupby index and `nlargest(keep='first')`), not
by first-encountered order.  In the CSV view a group whose rainfall values are
all null has an undefined mean and never appears, and no omitted group ranks
strictly above an included one.  The SQL query behaves differently: every
possible result is a 5-prefix of the group rows arranged by
`ORDER BY avg_rain DESC` — its entries are genuine per-location rounded
averages ordered nulls-first/descending (tie order among equal averages
unspecified) — and an all-null group is NOT excluded: its `NULL` average sorts
first, so whenever such a group is omitted the entire output consists of
null-average rows. -/
theorem top5_rain_amended (t : List Obs) :
    (top5Rain t).length = min 5 (meanSeries t).length
    ∧ List.Pairwise rankRel (top5Rain t)
    ∧ (∀ e ∈ top5Rain t, groupMean t e.1 = some e.2)
    ∧ (∀ l p, groupMean t l = none → (l, p) ∉ top5Rain t)
    ∧ (∀ g ∈ meanSeries t, g ∉ top5Rain t → ∀ e ∈ top5Rain t, rankRel e g)
    ∧ (∀ out, sqlTop5Valid t out →
        out.length = min 5 (sqlGroupRows t).length
        ∧ List.Pairwise nullsFirstGe out
        ∧ (∀ e ∈ out, e ∈ sqlGroupRows t)
        ∧ (∀ g ∈ sqlGroupRows t, g.2 = none → g ∉ out →
            ∀ e ∈ out, e.2 = none)) := by
  have hsorted : List.Pairwise rankRel
      (List.insertionSort rankRel (meanSeries t)) :=
    List.sorted_insertionSort rankRel (meanSeries t)
  have hmemser : ∀ e ∈ top5Rain t, e ∈ meanSeries t := by
    intro e he
    have h1 : e ∈ List.insertionSort rankRel (meanSeries t) :=
      (List.take_sublist 5 _).subset he
    exact (List.mem_insertionSort rankRel).mp h1
  have hmean : ∀ e ∈ top5Rain t, groupMean t e.1 = some e.2 := by
    intro e he
    obtain ⟨l, -, hmap⟩ := List.mem_filterMap.mp (hmemser e he)
    obtain ⟨m, hm, hlm⟩ := Option.map_eq_some'.mp hmap
    rw [← hlm]
    exact hm
  refine ⟨?_, ?_, hmean, ?_, ?_, ?_⟩
  · rw [top5Rain, List.length_take, List.length_insertionSort]
  · exact List.Pairwise.sublist (List.take_sublist 5 _) hsorted
  · intro l p hnone hmem
    have := hmean (l, p) hmem
    rw [hnone] at this
    cases this
  · intro g hg hgout e he
    have hg1 : g ∈ List.insertionSort rankRel (meanSeries t) :=
      (List.mem_insertionSort rankRel).mpr hg
    rw [← List.take_append_drop 5 (List.insertionSort rankRel (meanSeries t))]
      at hg1
    rcases List.mem_append.mp hg1 with hgl | hgr
    · exact absurd hgl hgout
    · have hsplit : List.take 5 (List.insertionSort rankRel (meanSeries t))
          ++ List.drop 5 (List.insertionSort rankRel (meanSeries t))
          = List.insertionSort rankRel (meanSeries t) :=
        List.take_append_drop 5 _
      have hpw := List.pairwise_append.mp (hsplit.symm ▸ hsorted)
      exact hpw.2.2 e he g hgr
  · intro out hval
    obtain ⟨full, hperm, hpw, hout⟩ := hval
    subst hout
    refine ⟨?_, ?_, ?_, ?_⟩
    · rw [List.length_take, hperm.length_eq]
    · exact List.Pairwise.sublist (List.take_sublist 5 _) hpw
    · intro e he
      exact hperm.subset ((List.take_sublist 5 _).subset he)
    · intro g hg hgnull hgout e he
      have hgfull : g ∈ full := hperm.mem_iff.mpr hg
      rw [← List.take_append_drop 5 full] at hgfull
      rcases List.mem_append.mp hgfull with h | h
      · exact absurd h hgout
      · have hsplit : List.take 5 full ++ List.drop 5 full = full :=
          List.take_append_drop 5 full
        have hpw2 := List.pairwise_append.mp (hsplit.symm ▸ hpw)
        rcases hpw2.2.2 e he g h with he2 | ⟨x, y, -, hy, -⟩
        · exact he2
        · rw [hgnull] at hy
          cases hy

/-- Witness for C7's amended theorem: location C has no non-null rainfall, so
it never appears in the CSV top-5 view of `rowsTie`; and the all-null group N
is one of the genuine group rows that the SQL result `[(N, NULL), (A, 5)]` is
built from. -/
theorem top5_rain_amended_witness :
    ("C", (0 : ℚ)) ∉ top5Rain rowsTie
    ∧ ("N", (none : Option ℚ)) ∈ sqlGroupRows rowsNullAvg :=
  ⟨(top5_rain_amended rowsTie).2.2.2.1 "C" 0 (by decide),
   ((top5_rain_amended rowsNullAvg).2.2.2.2.2 [("N", none), ("A", some 5)]
      sqlTop5Valid_example).2.2.1 ("N", none) (by decide)⟩

end WeatherAUS
